import Mathlib

/-!
# Verification of the AWSDrupalCDK configuration-assembly program

A shallow embedding of the CDK stacks in `aws_drupal_cdk/stacks/` and `app.py`.
Each stack's `__init__` is modelled as a pure assembly function that returns the
list of resource declarations it emits, in source order, together with an
optional assembly-time error.  An error means assembly halts at that point: the
returned list is exactly the prefix of declarations emitted before the failure.
-/

namespace AWSDrupalCDK

/-! ## Basic data model: subnet descriptors and handles -/

inductive SubnetType where
  | publicSubnet
  | privateWithEgress
  deriving DecidableEq, Repr

structure Subnet where
  az : Nat
  subnetType : SubnetType
  deriving DecidableEq, Repr

structure VpcHandle where
  cidr : String
  natGateways : Nat
  subnets : List Subnet
  deriving DecidableEq, Repr

/-- `vpc.select_subnets(subnet_type=ec2.SubnetType.PRIVATE_WITH_EGRESS)`. -/
def VpcHandle.privateSubnets (v : VpcHandle) : List Subnet :=
  v.subnets.filter (fun s => s.subnetType == SubnetType.privateWithEgress)

def VpcHandle.publicSubnets (v : VpcHandle) : List Subnet :=
  v.subnets.filter (fun s => s.subnetType == SubnetType.publicSubnet)

/-- Opaque handle to the database cluster produced by `DatabaseStack`
(endpoint and credential reference, as consumed by the service stack). -/
structure DatabaseHandle where
  clusterArn : String
  endpointHostname : String
  secretId : String
  deriving DecidableEq, Repr

structure FileSystemHandle where
  fileSystemArn : String
  fileSystemId : String
  deriving DecidableEq, Repr

structure RepositoryHandle where
  repositoryName : String
  repositoryUri : String
  deriving DecidableEq, Repr

/-- Assembly-time failures.  `valueError` is an explicit Python
`raise ValueError(msg)`; `requiredParamIsNone` is the binding-level rejection of
`None` for a required construct parameter; `emptySubnetSelection` is the error
`vpc.select_subnets` raises when no subnet matches; `attributeErrorOnNone` is a
Python `AttributeError` from an attribute access on `None`. -/
inductive AssemblyError where
  | valueError (msg : String)
  | requiredParamIsNone (param : String)
  | emptySubnetSelection (subnetType : SubnetType)
  | attributeErrorOnNone (attr : String)
  deriving DecidableEq, Repr

/-- How a credential value is bound in an emitted template. -/
inductive CredentialValue where
  | generated (key : String)
  | secretRef (secretId : String) (jsonField : String)
  | literal (value : String)
  deriving DecidableEq, Repr

def CredentialValue.isLiteral : CredentialValue → Bool
  | .literal _ => true
  | _ => false

/-- Python truthiness of an optional string (`if certificate_arn:` etc.):
`None` and the empty string are falsy. -/
def pyTruthy : Option String → Bool
  | none => false
  | some s => !(s == "")

/-! ## NetworkStack (`network_stack.py`) -/

structure SubnetConfiguration where
  name : String
  subnetType : SubnetType
  cidrMask : Nat
  deriving DecidableEq, Repr

/-- CDK `ec2.Vpc` subnet creation: one subnet per subnet configuration per
availability zone. -/
def vpcSubnets (maxAzs : Nat) : List SubnetConfiguration → List Subnet
  | [] => []
  | c :: rest =>
      (List.range maxAzs).map (fun i => { az := i, subnetType := c.subnetType }) ++
        vpcSubnets maxAzs rest

namespace NetworkStack

def maxAzs : Nat := 2

def subnetConfiguration : List SubnetConfiguration :=
  [ { name := "Private", subnetType := SubnetType.privateWithEgress, cidrMask := 24 },
    { name := "Public", subnetType := SubnetType.publicSubnet, cidrMask := 24 } ]

/-- The VPC declared by `NetworkStack.__init__`. -/
def vpc : VpcHandle :=
  { cidr := "10.0.0.0/16"
    natGateways := 2
    subnets := vpcSubnets maxAzs subnetConfiguration }

end NetworkStack

/-! ## DatabaseStack (`database_stack.py`) -/

/-- `secretsmanager.SecretStringGenerator`: the template fields are embedded
verbatim in the emitted declaration; the value under `generateStringKey` is
generated by the secret store. -/
structure SecretStringGenerator where
  templateFields : List (String × CredentialValue)
  generateStringKey : String
  excludePunctuation : Bool
  includeSpace : Bool
  deriving DecidableEq, Repr

inductive DbResource where
  | securityGroup (description : String)
  | secret (gen : SecretStringGenerator)
  | databaseCluster (engineVersion : String) (instances : Nat) (subnets : List Subnet)
      (storageEncrypted : Bool) (deletionProtection : Bool) (credentials : CredentialValue)
  deriving DecidableEq, Repr

def DbResource.isCluster : DbResource → Bool
  | .databaseCluster .. => true
  | _ => false

namespace DatabaseStack

/-- `secret_string_template='{"username": "admin"}'`,
`generate_string_key="password"`. -/
def dbCredentialsGenerator : SecretStringGenerator :=
  { templateFields := [("username", CredentialValue.literal "admin")]
    generateStringKey := "password"
    excludePunctuation := true
    includeSpace := false }

/-- `DatabaseStack.__init__`, in source order: security group, credentials
secret, then the Aurora cluster placed in the `PRIVATE_WITH_EGRESS` subnets.
With `vpc=None` the first construct call (`ec2.SecurityGroup`) rejects the
missing required parameter before anything is declared; with a VPC lacking
private subnets, the cluster's subnet selection fails after the security group
and the secret have been declared. -/
def assemble (vpc : Option VpcHandle) : List DbResource × Option AssemblyError :=
  match vpc with
  | none => ([], some (AssemblyError.requiredParamIsNone "vpc"))
  | some v =>
      let sg := DbResource.securityGroup "Security group for Drupal database"
      let secret := DbResource.secret dbCredentialsGenerator
      if v.privateSubnets.isEmpty then
        ([sg, secret], some (AssemblyError.emptySubnetSelection SubnetType.privateWithEgress))
      else
        ([sg, secret,
          DbResource.databaseCluster "aurora-mysql VER_2_11_2" 2 v.privateSubnets
            true true (CredentialValue.secretRef "DBCredentials" "")],
         none)

/-- The handle `self.cluster` exposes to consumers (attribute values are
deploy-time tokens). -/
def clusterHandle : DatabaseHandle :=
  { clusterArn := "Token[DrupalDB.ClusterArn]"
    endpointHostname := "Token[DrupalDB.Endpoint.Hostname]"
    secretId := "DBCredentials" }

end DatabaseStack

/-! ## ECRStack (`ecr_stack.py`) -/

structure LifecycleRule where
  maxImageCount : Nat
  rulePriority : Nat
  tagStatusTagged : Bool
  tagPfxList : List String
  deriving DecidableEq, Repr

namespace ECRStack

def repositoryName : String := "drupal-repository"

/-- `add_lifecycle_rule(max_image_count=5, rule_priority=1,
tag_status=TAGGED, tag_prefix_list=["v"])`. -/
def lifecycleRule : LifecycleRule :=
  { maxImageCount := 5
    rulePriority := 1
    tagStatusTagged := true
    tagPfxList := ["v"] }

structure Out where
  repository : RepositoryHandle
  imageTagMutable : Bool
  imageScanOnPush : Bool
  lifecycleRules : List LifecycleRule
  githubTokenBinding : String × CredentialValue
  dockerhubBinding : String × CredentialValue
  deriving DecidableEq, Repr

/-- `ECRStack.__init__`: the repository name is the constant
`"drupal-repository"` whatever the construct id; both credential bindings are
opaque secret-store references (`github-token-codebuild` for the GitHub source
credentials, `dockerhub-credentials` fetched by secret id in the buildspec). -/
def assemble (constructId : String) : Out :=
  { repository :=
      { repositoryName := repositoryName
        repositoryUri := "Token[" ++ constructId ++ ".DrupalRepository.Uri]" }
    imageTagMutable := true
    imageScanOnPush := true
    lifecycleRules := [lifecycleRule]
    githubTokenBinding := ("access_token", CredentialValue.secretRef "github-token-codebuild" "")
    dockerhubBinding := ("DOCKERHUB_CREDS", CredentialValue.secretRef "dockerhub-credentials" "") }

def credentialBindings (o : Out) : List (String × CredentialValue) :=
  [o.githubTokenBinding, o.dockerhubBinding]

end ECRStack

/-! ### ECR lifecycle-rule semantics

An image is covered by the rule iff it carries at least one tag with a
configured tag prefix (the rule has `tag_status=TAGGED`); among covered images
the newest `maxImageCount` are kept and the rest expire. -/

structure EcrImage where
  pushedAt : Nat
  tags : List String
  deriving DecidableEq, Repr

/-- String prefix test, computed on the character lists. -/
def charsArePfx : List Char → List Char → Bool
  | [], _ => true
  | _ :: _, [] => false
  | a :: as, b :: bs => a == b && charsArePfx as bs

def strHasPfx (p t : String) : Bool :=
  charsArePfx p.data t.data

def imageMatchesRule (r : LifecycleRule) (img : EcrImage) : Bool :=
  r.tagStatusTagged && img.tags.any (fun t => r.tagPfxList.any (fun p => strHasPfx p t))

/-- Number of rule-covered images in `repo` pushed strictly later than time `t`. -/
def newerMatchingCount (r : LifecycleRule) (repo : List EcrImage) (t : Nat) : Nat :=
  (repo.filter (fun j => imageMatchesRule r j && decide (t < j.pushedAt))).length

/-- An image expires iff the rule covers it and at least `maxImageCount`
covered images are newer. -/
def imageExpires (r : LifecycleRule) (repo : List EcrImage) (img : EcrImage) : Bool :=
  imageMatchesRule r img && decide (r.maxImageCount ≤ newerMatchingCount r repo img.pushedAt)

def retainedImages (r : LifecycleRule) (repo : List EcrImage) : List EcrImage :=
  repo.filter (fun img => !imageExpires r repo img)

/-! ## BackupStack (`backup_stack.py`) -/

structure BackupRule where
  completionWindowHours : Nat
  startWindowHours : Nat
  scheduleHour : Nat
  scheduleMinute : Nat
  deleteAfterDays : Nat
  deriving DecidableEq, Repr

inductive BackupResource where
  | backupVault (name : String)
  | backupPlan
  | planRule (r : BackupRule)
  | backupSelection (resourceArns : List String)
  deriving DecidableEq, Repr

namespace BackupStack

def dailyRule : BackupRule :=
  { completionWindowHours := 2
    startWindowHours := 1
    scheduleHour := 3
    scheduleMinute := 0
    deleteAfterDays := 30 }

/-- `BackupStack.__init__`, in source order: vault, plan, daily rule, then the
resource selection.  The selection evaluates `database.cluster_arn` first and
`file_system.file_system_arn` second, so a `None` handle is only discovered
there — after the vault, the plan and the rule have been declared — and it
surfaces as an attribute access error, not as a validation check. -/
def assemble (database : Option DatabaseHandle) (fileSystem : Option FileSystemHandle) :
    List BackupResource × Option AssemblyError :=
  let vault := BackupResource.backupVault "drupal-backup-vault"
  let plan := BackupResource.backupPlan
  let rule := BackupResource.planRule dailyRule
  match database with
  | none => ([vault, plan, rule], some (AssemblyError.attributeErrorOnNone "cluster_arn"))
  | some db =>
      match fileSystem with
      | none => ([vault, plan, rule], some (AssemblyError.attributeErrorOnNone "file_system_arn"))
      | some fs =>
          ([vault, plan, rule,
            BackupResource.backupSelection [db.clusterArn, fs.fileSystemArn]],
           none)

end BackupStack

/-! ## DrupalServiceStack (`service_stack.py`) -/

inductive Protocol where
  | http
  | https
  deriving DecidableEq, Repr

structure ContainerHealthCheck where
  command : List String
  intervalSeconds : Nat
  timeoutSeconds : Nat
  retries : Nat
  startPeriodSeconds : Nat
  deriving DecidableEq, Repr

structure TargetGroupHealthCheck where
  path : String
  healthyHttpCodes : String
  intervalSeconds : Nat
  timeoutSeconds : Nat
  healthyThresholdCount : Nat
  unhealthyThresholdCount : Nat
  deriving DecidableEq, Repr

structure ScalingPolicy where
  targetUtilizationPercent : Nat
  scaleInCooldownSeconds : Nat
  scaleOutCooldownSeconds : Nat
  deriving DecidableEq, Repr

structure AutoScalingConfig where
  minCapacity : Nat
  maxCapacity : Nat
  cpuScaling : ScalingPolicy
  memoryScaling : ScalingPolicy
  deriving DecidableEq, Repr

inductive ComparisonOperator where
  | greaterThanThreshold
  | greaterThanOrEqualToThreshold
  | lessThanThreshold
  | lessThanOrEqualToThreshold
  deriving DecidableEq, Repr

structure AlarmSpec where
  constructId : String
  metricName : String
  statistic : String
  periodSeconds : Nat
  evaluationPeriods : Nat
  threshold : Nat
  comparisonOperator : ComparisonOperator
  deriving DecidableEq, Repr

/-- Whether an alarm fires at a given metric value. -/
def alarmFires (a : AlarmSpec) (value : Nat) : Bool :=
  match a.comparisonOperator with
  | ComparisonOperator.greaterThanThreshold => decide (a.threshold < value)
  | ComparisonOperator.greaterThanOrEqualToThreshold => decide (a.threshold ≤ value)
  | ComparisonOperator.lessThanThreshold => decide (value < a.threshold)
  | ComparisonOperator.lessThanOrEqualToThreshold => decide (value ≤ a.threshold)

inductive SvcResource where
  | ecsCluster (containerInsights : Bool)
  | efsSecurityGroup
  | efsFileSystem (encrypted : Bool) (lifecycleAfterDays : Nat)
  | redisSecurityGroup
  | redisSubnetGroup (subnets : List Subnet)
  | redisReplicationGroup (engineVersion : String) (numCacheClusters : Nat)
      (automaticFailover : Bool) (atRestEncryption : Bool) (transitEncryption : Bool)
  | fargateTaskDefinition (cpu : Nat) (memoryLimitMiB : Nat) (ephemeralStorageGiB : Nat)
  | logGroup (retentionDays : Nat)
  | containerDefinition (environment : List (String × String))
      (secrets : List (String × CredentialValue)) (healthCheck : ContainerHealthCheck)
  | loadBalancedFargateService (desiredCount : Nat) (protocol : Protocol)
      (hasCertificate : Bool) (publicLoadBalancer : Bool) (circuitBreakerRollback : Bool)
      (healthCheck : TargetGroupHealthCheck)
  | dnsAliasRecord (recordName : String)
  | efsIngressRule (port : Nat)
  | autoScaling (config : AutoScalingConfig)
  | alarm (a : AlarmSpec)
  | stackOutput (name : String) (value : String)
  deriving DecidableEq, Repr

def SvcResource.credentialBindings : SvcResource → List (String × CredentialValue)
  | .containerDefinition _ secrets _ => secrets
  | _ => []

namespace DrupalServiceStack

def redisPrimaryEndpoint : String := "Token[DrupalRedis.PrimaryEndPoint.Address]"

/-- `_create_container_definition`: environment is plain strings, database
credentials are bound as Secrets Manager references. -/
def containerEnvironment (database : DatabaseHandle) : List (String × String) :=
  [ ("REDIS_HOST", redisPrimaryEndpoint),
    ("DB_HOST", database.endpointHostname),
    ("DB_NAME", "drupal"),
    ("DRUPAL_ENV", "production"),
    ("PHP_MEMORY_LIMIT", "512M"),
    ("PHP_MAX_EXECUTION_TIME", "300"),
    ("PHP_POST_MAX_SIZE", "64M"),
    ("PHP_UPLOAD_MAX_FILESIZE", "64M"),
    ("PHP_MAX_INPUT_VARS", "4000") ]

def containerSecrets (database : DatabaseHandle) : List (String × CredentialValue) :=
  [ ("DB_USER", CredentialValue.secretRef database.secretId "username"),
    ("DB_PASSWORD", CredentialValue.secretRef database.secretId "password") ]

def containerHealthCheck : ContainerHealthCheck :=
  { command := ["CMD-SHELL", "curl -f http://localhost/health || exit 1"]
    intervalSeconds := 30
    timeoutSeconds := 5
    retries := 3
    startPeriodSeconds := 90 }

def targetGroupHealthCheck : TargetGroupHealthCheck :=
  { path := "/health"
    healthyHttpCodes := "200-299"
    intervalSeconds := 30
    timeoutSeconds := 5
    healthyThresholdCount := 2
    unhealthyThresholdCount := 3 }

/-- `_create_fargate_service`: the listener protocol is HTTPS exactly when
`certificate_arn` is truthy (`protocol=HTTPS if certificate_arn else HTTP`),
and `_configure_dns` adds an alias record only for a truthy `domain_name`. -/
def createFargateService (certificateArn : Option String) (domainName : Option String) :
    List SvcResource :=
  let hasCert := pyTruthy certificateArn
  SvcResource.loadBalancedFargateService 2
      (if hasCert then Protocol.https else Protocol.http)
      hasCert true true targetGroupHealthCheck ::
    (match domainName with
     | some d => if d == "" then [] else [SvcResource.dnsAliasRecord d]
     | none => [])

/-- `_configure_auto_scaling`: bounds 2..6, CPU and memory target 75%,
300-second cooldown in both directions for both policies. -/
def configureAutoScaling : AutoScalingConfig :=
  { minCapacity := 2
    maxCapacity := 6
    cpuScaling :=
      { targetUtilizationPercent := 75
        scaleInCooldownSeconds := 300
        scaleOutCooldownSeconds := 300 }
    memoryScaling :=
      { targetUtilizationPercent := 75
        scaleInCooldownSeconds := 300
        scaleOutCooldownSeconds := 300 } }

/-- `DrupalServiceHighCPU`: no explicit comparison operator or period, so the
CDK defaults apply (greater-than-or-equal, 5-minute period, Average). -/
def highCpuAlarm : AlarmSpec :=
  { constructId := "DrupalServiceHighCPU"
    metricName := "CPUUtilization"
    statistic := "Average"
    periodSeconds := 300
    evaluationPeriods := 2
    threshold := 90
    comparisonOperator := ComparisonOperator.greaterThanOrEqualToThreshold }

def http5xxAlarm : AlarmSpec :=
  { constructId := "DrupalService5XX"
    metricName := "HTTPCode_Target_5XX_Count"
    statistic := "Sum"
    periodSeconds := 60
    evaluationPeriods := 2
    threshold := 10
    comparisonOperator := ComparisonOperator.greaterThanThreshold }

def highLatencyAlarm : AlarmSpec :=
  { constructId := "DrupalServiceHighLatency"
    metricName := "TargetResponseTime"
    statistic := "p95"
    periodSeconds := 60
    evaluationPeriods := 3
    threshold := 5
    comparisonOperator := ComparisonOperator.greaterThanThreshold }

/-- `DrupalServiceHealthCheckFailures`: `threshold=1` with
`GREATER_THAN_THRESHOLD`, so it fires only when the unhealthy-host count
exceeds 1. -/
def healthCheckFailuresAlarm : AlarmSpec :=
  { constructId := "DrupalServiceHealthCheckFailures"
    metricName := "UnHealthyHostCount"
    statistic := "Average"
    periodSeconds := 60
    evaluationPeriods := 2
    threshold := 1
    comparisonOperator := ComparisonOperator.greaterThanThreshold }

/-- `_configure_monitoring` declares exactly these four alarms, in order. -/
def configureMonitoring : List AlarmSpec :=
  [highCpuAlarm, http5xxAlarm, highLatencyAlarm, healthCheckFailuresAlarm]

/-- `DrupalServiceStack.__init__`.  `_validate_parameters` runs before any
resource declaration: it raises `ValueError` for each missing handle in
argument order, and for an empty repository name.  After validation the
resources are declared in source order; the Redis subnet group's selection of
`PRIVATE_WITH_EGRESS` subnets fails if the VPC has none. -/
def assemble (vpc : Option VpcHandle) (database : Option DatabaseHandle)
    (repository : Option RepositoryHandle) (domainName : Option String)
    (certificateArn : Option String) : List SvcResource × Option AssemblyError :=
  match vpc, database, repository with
  | none, _, _ => ([], some (AssemblyError.valueError "VPC must be provided"))
  | some _, none, _ => ([], some (AssemblyError.valueError "Database cluster must be provided"))
  | some _, some _, none => ([], some (AssemblyError.valueError "ECR repository must be provided"))
  | some v, some database, some repository =>
      if repository.repositoryName == "" then
        ([], some (AssemblyError.valueError "ECR repository name is not valid"))
      else
        let beforeRedisSubnets :=
          [ SvcResource.ecsCluster true,
            SvcResource.efsSecurityGroup,
            SvcResource.efsFileSystem true 14,
            SvcResource.redisSecurityGroup ]
        if v.privateSubnets.isEmpty then
          (beforeRedisSubnets,
           some (AssemblyError.emptySubnetSelection SubnetType.privateWithEgress))
        else
          (beforeRedisSubnets ++
            [ SvcResource.redisSubnetGroup v.privateSubnets,
              SvcResource.redisReplicationGroup "7.0" 2 true true true,
              SvcResource.fargateTaskDefinition 1024 2048 30,
              SvcResource.logGroup 30,
              SvcResource.containerDefinition (containerEnvironment database)
                (containerSecrets database) containerHealthCheck ] ++
            createFargateService certificateArn domainName ++
            [ SvcResource.efsIngressRule 2049,
              SvcResource.autoScaling configureAutoScaling ] ++
            configureMonitoring.map SvcResource.alarm ++
            [ SvcResource.stackOutput "ServiceEndpoint" "Token[DrupalService.LB.DNS]",
              SvcResource.stackOutput "RedisEndpoint" redisPrimaryEndpoint,
              SvcResource.stackOutput "ECRRepositoryURI" repository.repositoryUri,
              SvcResource.stackOutput "TaskDefinitionArn" "Token[DrupalTaskDef.Arn]",
              SvcResource.stackOutput "EFSFileSystemId" "Token[DrupalFiles.FileSystemId]",
              SvcResource.stackOutput "LoadBalancerDNS" "Token[DrupalService.LB.DNS]" ],
           none)

/-- The filesystem handle `self.file_system` exposed to the backup stack. -/
def fileSystemHandle : FileSystemHandle :=
  { fileSystemArn := "Token[DrupalFiles.Arn]"
    fileSystemId := "Token[DrupalFiles.FileSystemId]" }

end DrupalServiceStack

/-! ### Extractors over the emitted service resources -/

def serviceProtocolOf (resources : List SvcResource) : Option Protocol :=
  resources.findSome? (fun r =>
    match r with
    | SvcResource.loadBalancedFargateService _ p _ _ _ _ => some p
    | _ => none)

def desiredCountOf (resources : List SvcResource) : Option Nat :=
  resources.findSome? (fun r =>
    match r with
    | SvcResource.loadBalancedFargateService d _ _ _ _ _ => some d
    | _ => none)

def autoScalingOf (resources : List SvcResource) : Option AutoScalingConfig :=
  resources.findSome? (fun r =>
    match r with
    | SvcResource.autoScaling c => some c
    | _ => none)

def alarmsOf (resources : List SvcResource) : List AlarmSpec :=
  resources.filterMap (fun r =>
    match r with
    | SvcResource.alarm a => some a
    | _ => none)

/-! ## DrupalStage and PipelineStack (`pipeline_stack.py`) -/

/-- The per-environment component graph re-created inside each pipeline stage
(`DrupalStage.__init__`): ECR stack, network stack, database stack on the
stage's VPC, and service stack on the VPC, database cluster and repository,
with no domain name and no certificate. -/
structure DrupalStageOut where
  ecr : ECRStack.Out
  vpc : VpcHandle
  databaseAssembly : List DbResource × Option AssemblyError
  serviceAssembly : List SvcResource × Option AssemblyError
  deriving DecidableEq, Repr

namespace DrupalStage

def assemble (stageName : String) : DrupalStageOut :=
  let ecr := ECRStack.assemble (stageName ++ "/ECR")
  let vpc := NetworkStack.vpc
  { ecr := ecr
    vpc := vpc
    databaseAssembly := DatabaseStack.assemble (some vpc)
    serviceAssembly :=
      DrupalServiceStack.assemble (some vpc) (some DatabaseStack.clusterHandle)
        (some ecr.repository) none none }

end DrupalStage

inductive PipelineStep where
  | shellStep (stepId : String) (commands : List String)
  | manualApprovalStep (stepId : String)
  deriving DecidableEq, Repr

def PipelineStep.isManualApproval : PipelineStep → Bool
  | .manualApprovalStep _ => true
  | _ => false

structure PipelineStage where
  stageName : String
  stage : DrupalStageOut
  pre : List PipelineStep
  post : List PipelineStep
  deriving DecidableEq, Repr

namespace PipelineStack

/-- Source authentication for the synth step:
`SecretValue.secrets_manager("github-token")`. -/
def sourceAuthenticationBinding : String × CredentialValue :=
  ("authentication", CredentialValue.secretRef "github-token" "")

/-- `pipeline.add_stage(dev_stage, pre=[UnitTest, BuildAndPushImage],
post=[IntegrationTest])`. -/
def devStage (account region : String) : PipelineStage :=
  { stageName := "Dev"
    stage := DrupalStage.assemble "Dev"
    pre :=
      [ PipelineStep.shellStep "UnitTest" ["pytest"],
        PipelineStep.shellStep "BuildAndPushImage"
          [ "aws ecr get-login-password --region " ++ region ++
              " | docker login --username AWS --password-stdin " ++ account ++
              ".dkr.ecr." ++ region ++ ".amazonaws.com",
            "cd docker",
            "IMAGE_TAG=v$(date +%Y%m%d-%H%M%S)-$(git rev-parse --short HEAD)",
            "REPOSITORY_URI=" ++ account ++ ".dkr.ecr." ++ region ++
              ".amazonaws.com/drupal-repository",
            "docker build -t $REPOSITORY_URI:$IMAGE_TAG -t $REPOSITORY_URI:latest .",
            "docker push $REPOSITORY_URI:$IMAGE_TAG",
            "docker push $REPOSITORY_URI:latest" ] ]
    post :=
      [ PipelineStep.shellStep "IntegrationTest"
          [ "echo \"Running integration tests...\"",
            "sleep 280",
            "curl -Ssf $SERVICE_URL/health",
            "pytest tests/integration/" ] ] }

/-- `pipeline.add_stage(prod_stage, pre=[ManualApprovalStep("PromoteToProd")],
post=[TestProdService])`. -/
def prodStage : PipelineStage :=
  { stageName := "Prod"
    stage := DrupalStage.assemble "Prod"
    pre := [PipelineStep.manualApprovalStep "PromoteToProd"]
    post :=
      [ PipelineStep.shellStep "TestProdService"
          [ "echo \"Running production health check...\"",
            "sleep 180",
            "curl -Ssf $SERVICE_URL/health",
            "echo \"Production deployment successful!\"" ] ] }

/-- The stages of the assembled pipeline, in the order `add_stage` is called:
Dev first, then Prod. -/
def stages (account region : String) : List PipelineStage :=
  [devStage account region, prodStage]

end PipelineStack

/-! ## app.py : the top-level assembly -/

namespace App

def networkVpc : VpcHandle := NetworkStack.vpc

def databaseAssembly : List DbResource × Option AssemblyError :=
  DatabaseStack.assemble (some networkVpc)

def ecrOut : ECRStack.Out := ECRStack.assemble "AwsDrupalECRStack"

/-- `DrupalServiceStack(app, "AwsDrupalServiceStack", vpc=..., database=...,
repository=...)`: no domain name and no certificate ARN are passed. -/
def serviceAssembly : List SvcResource × Option AssemblyError :=
  DrupalServiceStack.assemble (some networkVpc) (some DatabaseStack.clusterHandle)
    (some ecrOut.repository) none none

def serviceResources : List SvcResource := serviceAssembly.1

def backupAssembly : List BackupResource × Option AssemblyError :=
  BackupStack.assemble (some DatabaseStack.clusterHandle)
    (some DrupalServiceStack.fileSystemHandle)

end App

/-! ### Credential bindings gathered from every emitted template -/

def DbResource.credentialBindings : DbResource → List (String × CredentialValue)
  | .secret gen => gen.templateFields ++
      [(gen.generateStringKey, CredentialValue.generated gen.generateStringKey)]
  | .databaseCluster _ _ _ _ _ credentials => [("credentials", credentials)]
  | _ => []

def stageCredentialBindings (s : DrupalStageOut) : List (String × CredentialValue) :=
  ECRStack.credentialBindings s.ecr ++
    s.databaseAssembly.1.flatMap DbResource.credentialBindings ++
    s.serviceAssembly.1.flatMap SvcResource.credentialBindings

/-- Every credential binding appearing in the templates the whole assembly
emits: the top-level app stacks plus the Dev and Prod stage re-instantiations
inside the pipeline. -/
def allCredentialBindings : List (String × CredentialValue) :=
  App.databaseAssembly.1.flatMap DbResource.credentialBindings ++
    App.serviceResources.flatMap SvcResource.credentialBindings ++
    ECRStack.credentialBindings App.ecrOut ++
    [PipelineStack.sourceAuthenticationBinding] ++
    stageCredentialBindings (DrupalStage.assemble "Dev") ++
    stageCredentialBindings (DrupalStage.assemble "Prod")

/-! ## Concrete inputs used in counterexamples and witnesses -/

/-- A network handle whose two subnets are both public (no
`PRIVATE_WITH_EGRESS` subnet). -/
def vpcPublicOnly : VpcHandle :=
  { cidr := "10.0.0.0/16"
    natGateways := 2
    subnets := [⟨0, SubnetType.publicSubnet⟩, ⟨1, SubnetType.publicSubnet⟩] }

/-- Six images, all tagged, none with a tag starting with `v` (e.g. the
`latest` tag the build jobs push). -/
def nonVTaggedRepo : List EcrImage :=
  [⟨0, ["latest"]⟩, ⟨1, ["release-a"]⟩, ⟨2, ["release-b"]⟩,
   ⟨3, ["release-c"]⟩, ⟨4, ["release-d"]⟩, ⟨5, ["release-e"]⟩]

/-- Seven images with `v`-prefixed tags and distinct push times. -/
def vTaggedRepo : List EcrImage :=
  [⟨0, ["v0"]⟩, ⟨1, ["v1"]⟩, ⟨2, ["v2"]⟩, ⟨3, ["v3"]⟩,
   ⟨4, ["v4"]⟩, ⟨5, ["v5"]⟩, ⟨6, ["v6"]⟩]

/-! ## Claim C1 -/

/-- C1 (counterexample): assembling the backup stack with the database handle
missing does not raise a validation error before any resource declaration is
emitted — the vault, the plan and the daily rule are already declared when the
`None` handle is discovered, and the failure is an attribute access error, not
a validation check. -/
theorem backup_stack_declares_before_missing_handle_failure :
    (BackupStack.assemble none (some DrupalServiceStack.fileSystemHandle)).1 ≠ [] ∧
    (BackupStack.assemble none (some DrupalServiceStack.fileSystemHandle)).1 =
      [BackupResource.backupVault "drupal-backup-vault", BackupResource.backupPlan,
       BackupResource.planRule BackupStack.dailyRule] ∧
    (BackupStack.assemble none (some DrupalServiceStack.fileSystemHandle)).2 =
      some (AssemblyError.attributeErrorOnNone "cluster_arn") := by
  decide

/-- C1 (amended): no stack silently defaults a missing required handle — each
halts with an error.  The service stack raises an explicit `ValueError` for
each missing handle before emitting any resource, and the database stack fails
on the required `vpc` parameter before emitting any resource; the backup
stack, however, declares its vault, plan and rule first and only then fails on
the missing database or filesystem handle, with an attribute access error
rather than a validation error. -/
theorem missing_handle_failure_modes :
    (∀ db repo dn ca, DrupalServiceStack.assemble none db repo dn ca =
        ([], some (AssemblyError.valueError "VPC must be provided"))) ∧
    (∀ v repo dn ca, DrupalServiceStack.assemble (some v) none repo dn ca =
        ([], some (AssemblyError.valueError "Database cluster must be provided"))) ∧
    (∀ v db dn ca, DrupalServiceStack.assemble (some v) (some db) none dn ca =
        ([], some (AssemblyError.valueError "ECR repository must be provided"))) ∧
    DatabaseStack.assemble none = ([], some (AssemblyError.requiredParamIsNone "vpc")) ∧
    (∀ fs, BackupStack.assemble none fs =
        ([BackupResource.backupVault "drupal-backup-vault", BackupResource.backupPlan,
          BackupResource.planRule BackupStack.dailyRule],
         some (AssemblyError.attributeErrorOnNone "cluster_arn"))) ∧
    (∀ db, BackupStack.assemble (some db) none =
        ([BackupResource.backupVault "drupal-backup-vault", BackupResource.backupPlan,
          BackupResource.planRule BackupStack.dailyRule],
         some (AssemblyError.attributeErrorOnNone "file_system_arn"))) :=
  ⟨fun _ _ _ _ => rfl, fun _ _ _ _ => rfl, fun _ _ _ _ => rfl, rfl,
   fun _ => rfl, fun _ => rfl⟩

/-! ## Claim C2 -/

/-- C2 (counterexample): assembling the database component with a network
handle lacking private subnets does fail, but not before any resource
declaration is emitted — the security group and the credentials secret are
already declared when the cluster's subnet selection fails. -/
theorem database_stack_emits_before_subnet_failure :
    (DatabaseStack.assemble (some vpcPublicOnly)).1 ≠ [] ∧
    (DatabaseStack.assemble (some vpcPublicOnly)).1 =
      [DbResource.securityGroup "Security group for Drupal database",
       DbResource.secret DatabaseStack.dbCredentialsGenerator] ∧
    (DatabaseStack.assemble (some vpcPublicOnly)).2 =
      some (AssemblyError.emptySubnetSelection SubnetType.privateWithEgress) := by
  decide

/-- C2 (amended): with a network handle lacking private subnets the database
component fails at assembly time — the cluster declaration's subnet selection
raises — so no cluster resource is ever emitted; the failure comes after the
security group and secret declarations, not before all resource emission. -/
theorem database_no_private_subnets_fails_at_assembly (v : VpcHandle)
    (h : v.privateSubnets = []) :
    (DatabaseStack.assemble (some v)).2 =
      some (AssemblyError.emptySubnetSelection SubnetType.privateWithEgress) ∧
    ∀ r ∈ (DatabaseStack.assemble (some v)).1, r.isCluster = false := by
  have hres : DatabaseStack.assemble (some v) =
      ([DbResource.securityGroup "Security group for Drupal database",
        DbResource.secret DatabaseStack.dbCredentialsGenerator],
       some (AssemblyError.emptySubnetSelection SubnetType.privateWithEgress)) := by
    simp [DatabaseStack.assemble, h]
  rw [hres]
  exact ⟨rfl, by decide⟩

theorem database_no_private_subnets_fails_at_assembly_witness :
    vpcPublicOnly.privateSubnets = [] ∧
    ((DatabaseStack.assemble (some vpcPublicOnly)).2 =
        some (AssemblyError.emptySubnetSelection SubnetType.privateWithEgress) ∧
      ∀ r ∈ (DatabaseStack.assemble (some vpcPublicOnly)).1, r.isCluster = false) :=
  ⟨by decide, database_no_private_subnets_fails_at_assembly vpcPublicOnly (by decide)⟩

/-! ## Claim C3 -/

/-- C3 (counterexample): the declared templates do contain a literally embedded
piece of credential material — the database master username `admin` is
hard-coded in the credentials secret's `secret_string_template`. -/
theorem db_username_literal_in_template :
    ("username", CredentialValue.literal "admin") ∈ allCredentialBindings ∧
    allCredentialBindings.any (fun b => b.2.isLiteral) = true := by
  decide

/-- C3 (amended): across every emitted template, the only literally embedded
credential binding is the database master username `admin` hard-coded in the
secret's template; the database password is generated, and every other
credential binding (container database credentials, GitHub tokens, Docker Hub
credentials) is an opaque reference to the external secret store. -/
theorem credential_bindings_opaque_except_username :
    (∀ b ∈ allCredentialBindings,
        b.2.isLiteral = true → b = ("username", CredentialValue.literal "admin")) ∧
    ("password", CredentialValue.generated "password") ∈ allCredentialBindings := by
  decide

/-! ## Claim C4 -/

/-- C4: the assembled pipeline has exactly two stages, Dev before Prod; the
Prod stage's pre-step list contains exactly one manual-approval step and the
Dev stage's pre-step list contains none. -/
theorem pipeline_two_stages_dev_then_prod (account region : String) :
    (PipelineStack.stages account region).length = 2 ∧
    (PipelineStack.stages account region).map PipelineStage.stageName = ["Dev", "Prod"] ∧
    (PipelineStack.prodStage.pre.filter PipelineStep.isManualApproval).length = 1 ∧
    ((PipelineStack.devStage account region).pre.filter
        PipelineStep.isManualApproval).length = 0 :=
  ⟨rfl, rfl, rfl, rfl⟩

/-! ## Claim C5 -/

/-- C5: with no TLS certificate ARN the load-balanced service selects plain
HTTP and never HTTPS; with a (nonempty) certificate ARN it selects HTTPS.  The
top-level app passes no certificate, so the deployed service listens on HTTP. -/
theorem certificate_selects_protocol :
    (∀ dn, serviceProtocolOf (DrupalServiceStack.createFargateService none dn) =
        some Protocol.http) ∧
    (∀ s dn, s ≠ "" →
        serviceProtocolOf (DrupalServiceStack.createFargateService (some s) dn) =
          some Protocol.https) ∧
    serviceProtocolOf App.serviceResources = some Protocol.http := by
  refine ⟨fun dn => rfl, fun s dn hs => ?_, by decide⟩
  have h1 : pyTruthy (some s) = true := by
    simp [pyTruthy, hs]
  simp only [DrupalServiceStack.createFargateService, h1, if_true]
  rfl

theorem certificate_selects_protocol_witness :
    ("arn:aws:acm:us-east-1:111111111111:certificate/demo" ≠ "") ∧
    serviceProtocolOf (DrupalServiceStack.createFargateService
        (some "arn:aws:acm:us-east-1:111111111111:certificate/demo") none) =
      some Protocol.https :=
  ⟨by decide,
   certificate_selects_protocol.2.1 "arn:aws:acm:us-east-1:111111111111:certificate/demo"
     none (by decide)⟩

/-! ## Claim C6 -/

/-- C6: the network component declares exactly 4 subnets — 2 public and 2
private — and in general the subnet count equals zones × subnet-types. -/
theorem network_subnet_counts :
    NetworkStack.vpc.subnets.length = 4 ∧
    NetworkStack.vpc.publicSubnets.length = 2 ∧
    NetworkStack.vpc.privateSubnets.length = 2 ∧
    NetworkStack.vpc.subnets.length =
      NetworkStack.maxAzs * NetworkStack.subnetConfiguration.length ∧
    ∀ (n : Nat) (cfgs : List SubnetConfiguration),
      (vpcSubnets n cfgs).length = n * cfgs.length := by
  refine ⟨by decide, by decide, by decide, by decide, fun n cfgs => ?_⟩
  induction cfgs with
  | nil => simp [vpcSubnets]
  | cons c rest ih =>
      simp only [vpcSubnets, List.length_append, List.length_map, List.length_range,
        List.length_cons, ih]
      ring

/-! ## Claim C7 -/

/-- C7: the assembled service has autoscaling minimum 2 ≤ desired count 2 ≤
maximum 6, with CPU and memory scaling both targeting 75% utilization and a
300-second cooldown in each direction. -/
theorem service_autoscaling_bounds :
    autoScalingOf App.serviceResources = some DrupalServiceStack.configureAutoScaling ∧
    desiredCountOf App.serviceResources = some 2 ∧
    DrupalServiceStack.configureAutoScaling.minCapacity ≤ 2 ∧
    2 ≤ DrupalServiceStack.configureAutoScaling.maxCapacity ∧
    DrupalServiceStack.configureAutoScaling.cpuScaling =
      { targetUtilizationPercent := 75, scaleInCooldownSeconds := 300,
        scaleOutCooldownSeconds := 300 } ∧
    DrupalServiceStack.configureAutoScaling.memoryScaling =
      { targetUtilizationPercent := 75, scaleInCooldownSeconds := 300,
        scaleOutCooldownSeconds := 300 } := by
  decide

/-! ## Claim C8 -/

/-- C8 (counterexample): the lifecycle rule does not bound the repository's
image count: with six retained images that are all tagged — but none with the
`v` prefix the rule filters on — nothing expires, and the repository retains
6 > 5 images. -/
theorem lifecycle_rule_unbounded_outside_v_tags :
    ECRStack.lifecycleRule.maxImageCount = 5 ∧
    (∀ img ∈ nonVTaggedRepo, img.tags ≠ []) ∧
    retainedImages ECRStack.lifecycleRule nonVTaggedRepo = nonVTaggedRepo ∧
    (retainedImages ECRStack.lifecycleRule nonVTaggedRepo).length = 6 := by
  decide

/-! ### Lemmas about the lifecycle-rule semantics -/

lemma length_filter_mono {α : Type} {p q : α → Bool} (l : List α)
    (h : ∀ a ∈ l, p a = true → q a = true) :
    (l.filter p).length ≤ (l.filter q).length := by
  induction l with
  | nil => simp
  | cons a t ih =>
      have iht := ih (fun x hx hp => h x (List.mem_cons_of_mem a hx) hp)
      simp only [List.filter_cons]
      by_cases hp : p a = true
      · rw [if_pos hp, if_pos (h a (List.mem_cons_self a t) hp)]
        simpa using iht
      · rw [if_neg hp]
        by_cases hq : q a = true
        · rw [if_pos hq]
          exact Nat.le_succ_of_le iht
        · rw [if_neg hq]
          exact iht

lemma newerMatchingCount_antitone (r : LifecycleRule) (repo : List EcrImage)
    {t₁ t₂ : Nat} (h : t₁ ≤ t₂) :
    newerMatchingCount r repo t₂ ≤ newerMatchingCount r repo t₁ := by
  apply length_filter_mono
  intro j _ hj
  simp only [Bool.and_eq_true, decide_eq_true_eq] at hj ⊢
  exact ⟨hj.1, lt_of_le_of_lt h hj.2⟩

/-- Among rule-covered images, an expired one is strictly older than any
retained one: eviction is oldest-first. -/
lemma expired_matching_older (r : LifecycleRule) (repo : List EcrImage)
    {i j : EcrImage} (hmi : imageMatchesRule r i = true)
    (hmj : imageMatchesRule r j = true)
    (hei : imageExpires r repo i = true) (hej : imageExpires r repo j = false) :
    i.pushedAt < j.pushedAt := by
  have hci : r.maxImageCount ≤ newerMatchingCount r repo i.pushedAt := by
    simpa [imageExpires, hmi] using hei
  have hcj : ¬ r.maxImageCount ≤ newerMatchingCount r repo j.pushedAt := by
    simpa [imageExpires, hmj] using hej
  by_contra hnot
  push_neg at hnot
  have := newerMatchingCount_antitone r repo hnot
  omega

lemma newer_card_strict_anti {T : Finset Nat} {a b : Nat} (hb : b ∈ T) (hab : a < b) :
    (T.filter (fun s => b < s)).card < (T.filter (fun s => a < s)).card := by
  apply Finset.card_lt_card
  rw [Finset.ssubset_def]
  refine ⟨fun s hs => ?_, fun hsub => ?_⟩
  · rcases Finset.mem_filter.mp hs with ⟨hsT, hbs⟩
    exact Finset.mem_filter.mpr ⟨hsT, lt_trans hab hbs⟩
  · have hbmem := hsub (Finset.mem_filter.mpr ⟨hb, hab⟩)
    exact lt_irrefl b (Finset.mem_filter.mp hbmem).2

/-- Pigeonhole: in a finite set of timestamps, at most `k` elements have
fewer than `k` strictly larger elements. -/
lemma filter_newer_card_lt_le (T : Finset Nat) (k : Nat) :
    (T.filter (fun t => (T.filter (fun s => t < s)).card < k)).card ≤ k := by
  classical
  have hcard := Finset.card_le_card_of_injOn
    (f := fun t => (T.filter (fun s => t < s)).card)
    (s := T.filter (fun t => (T.filter (fun s => t < s)).card < k))
    (t := Finset.range k) ?maps ?inj
  · simpa using hcard
  case maps =>
    intro t ht
    exact Finset.mem_range.mpr (Finset.mem_filter.mp ht).2
  case inj =>
    intro a ha b hb hab
    simp only at hab
    rcases Finset.mem_filter.mp ha with ⟨haT, -⟩
    rcases Finset.mem_filter.mp hb with ⟨hbT, -⟩
    rcases Nat.lt_trichotomy a b with hlt | heq | hgt
    · have := newer_card_strict_anti hbT hlt
      omega
    · exact heq
    · have := newer_card_strict_anti haT hgt
      omega

lemma length_filter_eq_card_filter_toFinset (ts : List Nat) (h : ts.Nodup)
    (p : Nat → Bool) :
    (ts.filter p).length = (ts.toFinset.filter (fun s => p s = true)).card := by
  classical
  rw [← List.toFinset_filter]
  exact (List.toFinset_card_of_nodup (h.filter p)).symm

lemma nodup_filter_newer_length_le (ts : List Nat) (h : ts.Nodup) (k : Nat) :
    (ts.filter (fun t =>
        decide ((ts.filter (fun s => decide (t < s))).length < k))).length ≤ k := by
  classical
  have hinner : ∀ t : Nat, (ts.filter (fun s => decide (t < s))).length =
      (ts.toFinset.filter (fun s => t < s)).card := by
    intro t
    rw [length_filter_eq_card_filter_toFinset ts h]
    congr 1
    apply Finset.filter_congr
    intro s _
    simp
  rw [length_filter_eq_card_filter_toFinset ts h]
  have hcongr : ts.toFinset.filter
        (fun t => decide ((ts.filter (fun s => decide (t < s))).length < k) = true) =
      ts.toFinset.filter (fun t => (ts.toFinset.filter (fun s => t < s)).card < k) := by
    apply Finset.filter_congr
    intro t _
    simp [hinner t]
  rw [hcongr]
  exact filter_newer_card_lt_le ts.toFinset k

lemma length_filter_pushedAt (M : List EcrImage) (p : Nat → Bool) :
    (M.filter (fun i => p i.pushedAt)).length =
      ((M.map EcrImage.pushedAt).filter p).length := by
  induction M with
  | nil => rfl
  | cons a t ih =>
      simp only [List.map_cons, List.filter_cons]
      by_cases hp : p a.pushedAt = true
      · rw [if_pos hp, if_pos hp]
        simpa using ih
      · rw [if_neg hp, if_neg hp]
        exact ih

lemma newerMatchingCount_eq (r : LifecycleRule) (repo : List EcrImage) (t : Nat) :
    newerMatchingCount r repo t =
      (((repo.filter (imageMatchesRule r)).map EcrImage.pushedAt).filter
          (fun s => decide (t < s))).length := by
  rw [newerMatchingCount, ← length_filter_pushedAt, List.filter_filter]
  exact congrArg List.length (List.filter_congr (fun a _ => Bool.and_comm _ _))

lemma retained_matching_eq (r : LifecycleRule) (repo : List EcrImage) :
    (retainedImages r repo).filter (imageMatchesRule r) =
      (repo.filter (imageMatchesRule r)).filter
        (fun i => decide (newerMatchingCount r repo i.pushedAt < r.maxImageCount)) := by
  rw [retainedImages, List.filter_filter, List.filter_filter]
  apply List.filter_congr
  intro i _
  by_cases hm : imageMatchesRule r i = true
  · simp only [imageExpires, hm, Bool.true_and, Bool.and_true, ← decide_not,
      decide_eq_decide]
    omega
  · have hm' : imageMatchesRule r i = false := by
      simpa using hm
    simp [imageExpires, hm']

/-- At most `maxImageCount` rule-covered images are retained (push times
assumed pairwise distinct). -/
lemma retained_matching_length_le (r : LifecycleRule) (repo : List EcrImage)
    (h : (repo.map EcrImage.pushedAt).Nodup) :
    ((retainedImages r repo).filter (imageMatchesRule r)).length ≤ r.maxImageCount := by
  classical
  rw [retained_matching_eq]
  have hnodup : ((repo.filter (imageMatchesRule r)).map EcrImage.pushedAt).Nodup :=
    List.Nodup.sublist (List.Sublist.map _ (List.filter_sublist _)) h
  have hpred : ∀ i ∈ repo.filter (imageMatchesRule r),
      decide (newerMatchingCount r repo i.pushedAt < r.maxImageCount) =
        (fun t : Nat => decide
            ((((repo.filter (imageMatchesRule r)).map EcrImage.pushedAt).filter
                (fun s => decide (t < s))).length < r.maxImageCount)) i.pushedAt := by
    intro i _
    simp only [newerMatchingCount_eq]
  rw [List.filter_congr hpred]
  refine le_trans (le_of_eq (length_filter_pushedAt (repo.filter (imageMatchesRule r))
      (fun t => decide ((((repo.filter (imageMatchesRule r)).map EcrImage.pushedAt).filter
          (fun s => decide (t < s))).length < r.maxImageCount)))) ?_
  exact nodup_filter_newer_length_le _ hnodup _

/-- C8 (amended): the lifecycle rule bounds only the images it covers — those
carrying a tag with the configured `v` prefix: at most 5 of them are retained
and, among covered images, eviction is oldest-first.  Images with other tags
or no tags are outside the rule, so the repository as a whole can retain more
than the configured maximum. -/
theorem lifecycle_rule_bounds_v_tagged_images (repo : List EcrImage)
    (h : (repo.map EcrImage.pushedAt).Nodup) :
    ((retainedImages ECRStack.lifecycleRule repo).filter
        (imageMatchesRule ECRStack.lifecycleRule)).length ≤
      ECRStack.lifecycleRule.maxImageCount ∧
    ∀ i j : EcrImage, imageMatchesRule ECRStack.lifecycleRule i = true →
      imageMatchesRule ECRStack.lifecycleRule j = true →
      imageExpires ECRStack.lifecycleRule repo i = true →
      imageExpires ECRStack.lifecycleRule repo j = false →
      i.pushedAt < j.pushedAt :=
  ⟨retained_matching_length_le _ repo h,
   fun _ _ hmi hmj hei hej => expired_matching_older _ repo hmi hmj hei hej⟩

theorem lifecycle_rule_bounds_v_tagged_images_witness :
    (vTaggedRepo.map EcrImage.pushedAt).Nodup ∧
    (((retainedImages ECRStack.lifecycleRule vTaggedRepo).filter
        (imageMatchesRule ECRStack.lifecycleRule)).length ≤
      ECRStack.lifecycleRule.maxImageCount ∧
     ∀ i j : EcrImage, imageMatchesRule ECRStack.lifecycleRule i = true →
       imageMatchesRule ECRStack.lifecycleRule j = true →
       imageExpires ECRStack.lifecycleRule vTaggedRepo i = true →
       imageExpires ECRStack.lifecycleRule vTaggedRepo j = false →
       i.pushedAt < j.pushedAt) :=
  ⟨by decide, lifecycle_rule_bounds_v_tagged_images vTaggedRepo (by decide)⟩

/-! ## Claim C9 -/

/-- C9 (counterexample): the unhealthy-host alarm does not fire whenever the
unhealthy-host count exceeds 0 — at a count of 1 (which exceeds 0) the alarm
stays silent, because it is declared with threshold 1 and the strict
greater-than comparison. -/
theorem unhealthy_host_alarm_silent_at_one :
    DrupalServiceStack.healthCheckFailuresAlarm ∈ alarmsOf App.serviceResources ∧
    (0 : Nat) < 1 ∧
    alarmFires DrupalServiceStack.healthCheckFailuresAlarm 1 = false := by
  decide

/-- C9 (amended): the service declares exactly four alarms: CPU utilization at
or above 90% (the CDK default comparison is greater-than-or-equal), 5XX
target-response count exceeding 10 per period, p95 latency exceeding 5
seconds, and unhealthy-host count exceeding 1 (not 0). -/
theorem service_four_alarms_thresholds :
    alarmsOf App.serviceResources =
      [DrupalServiceStack.highCpuAlarm, DrupalServiceStack.http5xxAlarm,
       DrupalServiceStack.highLatencyAlarm, DrupalServiceStack.healthCheckFailuresAlarm] ∧
    (alarmsOf App.serviceResources).length = 4 ∧
    (∀ v, alarmFires DrupalServiceStack.highCpuAlarm v = decide (90 ≤ v)) ∧
    (∀ v, alarmFires DrupalServiceStack.http5xxAlarm v = decide (10 < v)) ∧
    (∀ v, alarmFires DrupalServiceStack.highLatencyAlarm v = decide (5 < v)) ∧
    (∀ v, alarmFires DrupalServiceStack.healthCheckFailuresAlarm v = decide (1 < v)) ∧
    DrupalServiceStack.highLatencyAlarm.statistic = "p95" :=
  ⟨by decide, by decide, fun _ => rfl, fun _ => rfl, fun _ => rfl, fun _ => rfl, rfl⟩

/-! ## Claim C10 -/

/-- C10: every instantiation of the image-registry component — standalone and
re-created inside each pipeline stage — declares its repository with the
identical constant name `drupal-repository`, independent of any input. -/
theorem ecr_repository_name_constant :
    (∀ constructId : String,
        (ECRStack.assemble constructId).repository.repositoryName = "drupal-repository") ∧
    (∀ stageName : String,
        (DrupalStage.assemble stageName).ecr.repository.repositoryName =
          "drupal-repository") ∧
    (∀ account region : String,
        ((PipelineStack.devStage account region).stage.ecr.repository.repositoryName,
         PipelineStack.prodStage.stage.ecr.repository.repositoryName) =
          ("drupal-repository", "drupal-repository")) ∧
    App.ecrOut.repository.repositoryName = "drupal-repository" :=
  ⟨fun _ => rfl, fun _ => rfl, fun _ _ => rfl, rfl⟩

end AWSDrupalCDK
